import Mathlib

/-!
Shallow embedding of the H5 (Three-Wire UART) transport core of
`src/common/transport/h5_transport.cpp`, together with theorems checking the
natural-language specification against the code.

Machine integers (`uint8_t` counters) are modelled as `Nat` with the masking
the source performs (`& 0x07`) made explicit; byte vectors (`payload_t`,
`std::vector<uint8_t>`) are `List Nat`; fallible or undefined-behaviour paths
(a failed `dynamic_cast` dereference) return `Option`.
-/

namespace H5Spec

/-- `h5_state_t`: the link-layer state machine states. -/
inductive h5_state_t where
  | STATE_UNKNOWN
  | STATE_START
  | STATE_RESET
  | STATE_UNINITIALIZED
  | STATE_INITIALIZED
  | STATE_ACTIVE
  | STATE_FAILED
  | STATE_CLOSED
deriving DecidableEq, Repr

export h5_state_t (STATE_UNKNOWN STATE_START STATE_RESET STATE_UNINITIALIZED
  STATE_INITIALIZED STATE_ACTIVE STATE_FAILED STATE_CLOSED)

/-- `h5_pkt_type_t`: the packet-type tag carried in the H5 header. -/
inductive h5_pkt_type_t where
  | ACK_PACKET
  | HCI_COMMAND_PACKET
  | ACL_DATA_PACKET
  | SYNC_DATA_PACKET
  | HCI_EVENT_PACKET
  | RESET_PACKET
  | VENDOR_SPECIFIC_PACKET
  | LINK_CONTROL_PACKET
deriving DecidableEq, Repr

export h5_pkt_type_t (ACK_PACKET HCI_COMMAND_PACKET ACL_DATA_PACKET
  SYNC_DATA_PACKET HCI_EVENT_PACKET RESET_PACKET VENDOR_SPECIFIC_PACKET
  LINK_CONTROL_PACKET)

/-- `control_pkt_type`: the control packets the transport can emit. -/
inductive control_pkt_type where
  | CONTROL_PKT_RESET
  | CONTROL_PKT_SYNC
  | CONTROL_PKT_SYNC_RESPONSE
  | CONTROL_PKT_SYNC_CONFIG
  | CONTROL_PKT_SYNC_CONFIG_RESPONSE
  | CONTROL_PKT_ACK
deriving DecidableEq, Repr

export control_pkt_type (CONTROL_PKT_RESET CONTROL_PKT_SYNC
  CONTROL_PKT_SYNC_RESPONSE CONTROL_PKT_SYNC_CONFIG
  CONTROL_PKT_SYNC_CONFIG_RESPONSE CONTROL_PKT_ACK)

/-- Application status codes surfaced through the status callbacks. -/
inductive sd_rpc_app_status_t where
  | IO_RESOURCES_UNAVAILABLE
  | RESET_PERFORMED
  | CONNECTION_ACTIVE
  | PKT_SEND_MAX_RETRIES_REACHED
deriving DecidableEq, Repr

export sd_rpc_app_status_t (IO_RESOURCES_UNAVAILABLE RESET_PERFORMED
  CONNECTION_ACTIVE PKT_SEND_MAX_RETRIES_REACHED)

/-- NRF error codes returned by the public API. -/
inductive nrf_error where
  | NRF_SUCCESS
  | NRF_ERROR_INVALID_STATE
  | NRF_ERROR_TIMEOUT
  | NRF_ERROR_INTERNAL
deriving DecidableEq, Repr

export nrf_error (NRF_SUCCESS NRF_ERROR_INVALID_STATE NRF_ERROR_TIMEOUT
  NRF_ERROR_INTERNAL)

/-- `payload_t`: a byte vector. -/
abbrev payload_t := List Nat

/-- Number of times to send reliable packets before giving in. -/
def PACKET_RETRANSMISSIONS : Nat := 6

/-- Three-Wire byte patterns (table at the top of `h5_transport.cpp`):
SYNC = 0x01 0x7E. -/
def SyncFirstByte : Nat := 0x01
def SyncSecondByte : Nat := 0x7E
/-- SYNC RESPONSE = 0x02 0x7D. -/
def SyncRspFirstByte : Nat := 0x02
def SyncRspSecondByte : Nat := 0x7D
/-- CONFIG MESSAGE = 0x03 0xFC. -/
def SyncConfigFirstByte : Nat := 0x03
def SyncConfigSecondByte : Nat := 0xFC
/-- CONFIG RESPONSE = 0x04 0x7B. -/
def SyncConfigRspFirstByte : Nat := 0x04
def SyncConfigRspSecondByte : Nat := 0x7B

/-- The inner loop of `H5Transport::checkPattern`: walk the pattern, failing
when the packet iterator reaches the end first or a byte differs. -/
def checkPatternLoop : payload_t → payload_t → Bool
  | _, [] => true
  | [], _ :: _ => false
  | b :: rest, p :: ps => if b ≠ p then false else checkPatternLoop rest ps

/-- `H5Transport::checkPattern`: `false` when `offset >= packet.size()`,
otherwise compare `pattern` against the packet bytes starting at `offset`. -/
def checkPattern (packet : payload_t) (offset : Nat) (pat : payload_t) : Bool :=
  if offset ≥ packet.length then false
  else checkPatternLoop (packet.drop offset) pat

/-- `H5Transport::isSyncPacket`. -/
def isSyncPacket (packet : payload_t) (offset : Nat := 0) : Bool :=
  checkPattern packet offset [SyncFirstByte, SyncSecondByte]

/-- `H5Transport::isSyncResponsePacket`. -/
def isSyncResponsePacket (packet : payload_t) (offset : Nat := 0) : Bool :=
  checkPattern packet offset [SyncRspFirstByte, SyncRspSecondByte]

/-- `H5Transport::isSyncConfigPacket`. -/
def isSyncConfigPacket (packet : payload_t) (offset : Nat := 0) : Bool :=
  checkPattern packet offset [SyncConfigFirstByte, SyncConfigSecondByte]

/-- `H5Transport::isSyncConfigResponsePacket`. -/
def isSyncConfigResponsePacket (packet : payload_t) (offset : Nat := 0) : Bool :=
  checkPattern packet offset [SyncConfigRspFirstByte, SyncConfigRspSecondByte]

/-- The specification-side reading of `checkPattern`: the offset lies inside
the packet and the pattern equals the packet bytes starting there, the whole
pattern fitting inside the packet. -/
def checkPatternSpec (packet : payload_t) (offset : Nat) (pat : payload_t) : Prop :=
  offset < packet.length ∧ offset + pat.length ≤ packet.length ∧
    ∀ i < pat.length, packet.getD (offset + i) 0 = pat.getD i 0

instance (packet : payload_t) (offset : Nat) (pat : payload_t) :
    Decidable (checkPatternSpec packet offset pat) := by
  unfold checkPatternSpec; infer_instance

lemma checkPatternLoop_iff (pat l : payload_t) :
    checkPatternLoop l pat = true ↔
      pat.length ≤ l.length ∧ ∀ i < pat.length, l.getD i 0 = pat.getD i 0 := by
  induction pat generalizing l with
  | nil => simp [checkPatternLoop]
  | cons p ps ih =>
    cases l with
    | nil => simp [checkPatternLoop]
    | cons b rest =>
      simp only [checkPatternLoop]
      by_cases hbp : b = p
      · subst hbp
        rw [if_neg (by simp), ih]
        constructor
        · rintro ⟨hlen, hpt⟩
          refine ⟨by simpa using hlen, ?_⟩
          intro i hi
          cases i with
          | zero => simp
          | succ j =>
            simp only [List.getD_cons_succ]
            exact hpt j (by simpa using hi)
        · rintro ⟨hlen, hpt⟩
          refine ⟨by simpa using hlen, ?_⟩
          intro i hi
          have := hpt (i + 1) (by simpa using hi)
          simpa using this
      · rw [if_pos (by simpa using hbp)]
        constructor
        · intro h; exact absurd h (by simp)
        · rintro ⟨-, hpt⟩
          have := hpt 0 (by simp)
          simp at this
          exact absurd this hbp

lemma drop_getD (l : payload_t) (o i : Nat) :
    (l.drop o).getD i 0 = l.getD (o + i) 0 := by
  simp [List.getD, List.getElem?_drop]

lemma checkPattern_iff (packet : payload_t) (offset : Nat) (pat : payload_t) :
    checkPattern packet offset pat = true ↔ checkPatternSpec packet offset pat := by
  unfold checkPattern checkPatternSpec
  by_cases hoff : offset ≥ packet.length
  · rw [if_pos hoff]
    simp only [Bool.false_eq_true, false_iff]
    rintro ⟨hlt, -, -⟩
    omega
  · rw [if_neg hoff, checkPatternLoop_iff]
    have hlen : (packet.drop offset).length = packet.length - offset :=
      List.length_drop offset packet
    constructor
    · rintro ⟨h1, h2⟩
      refine ⟨by omega, by omega, ?_⟩
      intro i hi
      have := h2 i hi
      rwa [drop_getD] at this
    · rintro ⟨h1, h2, h3⟩
      refine ⟨by omega, ?_⟩
      intro i hi
      rw [drop_getD]
      exact h3 i hi

/-- `StartExitCriterias` (flags of the START record; the shared `close` and
`ioResourceError` flags are inlined into each record, as in the source's
base class). -/
structure StartExitCriterias where
  ioResourceError : Bool := false
  close : Bool := false
  isOpened : Bool := false
deriving DecidableEq, Repr

/-- `ResetExitCriterias`. -/
structure ResetExitCriterias where
  ioResourceError : Bool := false
  close : Bool := false
  resetSent : Bool := false
  resetWait : Bool := false
deriving DecidableEq, Repr

/-- `UninitializedExitCriterias`. -/
structure UninitializedExitCriterias where
  ioResourceError : Bool := false
  close : Bool := false
  syncSent : Bool := false
  syncRspReceived : Bool := false
deriving DecidableEq, Repr

/-- `InitializedExitCriterias`. -/
structure InitializedExitCriterias where
  ioResourceError : Bool := false
  close : Bool := false
  syncConfigSent : Bool := false
  syncConfigRspReceived : Bool := false
deriving DecidableEq, Repr

/-- `ActiveExitCriterias`. -/
structure ActiveExitCriterias where
  ioResourceError : Bool := false
  close : Bool := false
  syncReceived : Bool := false
  irrecoverableSyncError : Bool := false
deriving DecidableEq, Repr

/-- Modelled from the spec: the class bodies of the exit-criteria records
(declared in the missing header `h5_transport.h`) expose `isFullfilled` =
"any terminal flag set", the terminal flags being the shared `close` /
`ioResourceError` and the state-specific success condition of §4.4. -/
def StartExitCriterias.isFullfilled (e : StartExitCriterias) : Bool :=
  e.ioResourceError || e.close || e.isOpened

/-- Modelled from the spec: see `StartExitCriterias.isFullfilled`. -/
def ResetExitCriterias.isFullfilled (e : ResetExitCriterias) : Bool :=
  e.ioResourceError || e.close || (e.resetSent && e.resetWait)

/-- Modelled from the spec: see `StartExitCriterias.isFullfilled`. -/
def UninitializedExitCriterias.isFullfilled (e : UninitializedExitCriterias) : Bool :=
  e.ioResourceError || e.close || (e.syncSent && e.syncRspReceived)

/-- Modelled from the spec: see `StartExitCriterias.isFullfilled`. -/
def InitializedExitCriterias.isFullfilled (e : InitializedExitCriterias) : Bool :=
  e.ioResourceError || e.close || (e.syncConfigSent && e.syncConfigRspReceived)

/-- Modelled from the spec: see `StartExitCriterias.isFullfilled`. -/
def ActiveExitCriterias.isFullfilled (e : ActiveExitCriterias) : Bool :=
  e.ioResourceError || e.close || e.syncReceived || e.irrecoverableSyncError

/-- The transport-instance fields touched by the dispatcher and counters:
`currentState`, `seqNum`, `ackNum` and the per-state exit-criteria records
(`exitCriterias[s]`; states FAILED, CLOSED and UNKNOWN have no record). -/
structure H5 where
  currentState : h5_state_t
  seqNum : Nat
  ackNum : Nat
  startEC : StartExitCriterias
  resetEC : ResetExitCriterias
  uninitEC : UninitializedExitCriterias
  initEC : InitializedExitCriterias
  activeEC : ActiveExitCriterias
deriving DecidableEq, Repr

/-- `H5Transport::incrementSeqNum`: `seqNum++; seqNum = seqNum & 0x07`. -/
def incrementSeqNum (seqNum : Nat) : Nat := (seqNum + 1) &&& 0x07

/-- `H5Transport::incrementAckNum`: `ackNum++; ackNum = ackNum & 0x07`. -/
def incrementAckNum (ackNum : Nat) : Nat := (ackNum + 1) &&& 0x07

/-- Observable side effects of one `processPacket` call (post-decode):
control packets handed to `sendControlPacket`, payloads handed to
`upperDataCallback`, and the condition variables notified. -/
structure Effects where
  sent : List control_pkt_type := []
  delivered : List payload_t := []
  ackNotified : Bool := false
  smNotified : Bool := false
deriving DecidableEq, Repr

/-- The routing core of `H5Transport::processPacket` (lines 318–418), applied
to the already-decoded header fields and payload (`slip_decode` / `h5_decode`
are external collaborators; a decode failure only bumps the error counter and
drops the packet before this logic runs).  `none` models the undefined
behaviour of dereferencing a failed `dynamic_cast<ActiveExitCriterias*>` in
the out-of-range-ACK branch when the current state's record is not the ACTIVE
record. -/
def processDecoded (st : H5) (seq_num ack_num : Nat) (reliable_packet : Bool)
    (packet_type : h5_pkt_type_t) (h5Payload : payload_t) : Option (H5 × Effects) :=
  if st.currentState = STATE_RESET then
    -- Ignore packets received in this state; only notify the state machine.
    some (st, { smNotified := true })
  else if packet_type = LINK_CONTROL_PACKET then
    if st.currentState = STATE_UNINITIALIZED then
      if isSyncResponsePacket h5Payload then
        some ({ st with uninitEC := { st.uninitEC with syncRspReceived := true } },
              { smNotified := true })
      else if isSyncPacket h5Payload then
        some (st, { sent := [CONTROL_PKT_SYNC_RESPONSE] })
      else
        some (st, {})
    else if st.currentState = STATE_INITIALIZED then
      if isSyncConfigResponsePacket h5Payload then
        some ({ st with initEC := { st.initEC with syncConfigRspReceived := true } },
              { smNotified := true })
      else if isSyncConfigPacket h5Payload then
        some (st, { sent := [CONTROL_PKT_SYNC_CONFIG_RESPONSE], smNotified := true })
      else if isSyncPacket h5Payload then
        some (st, { sent := [CONTROL_PKT_SYNC_RESPONSE], smNotified := true })
      else
        some (st, {})
    else if st.currentState = STATE_ACTIVE then
      if isSyncPacket h5Payload then
        some ({ st with activeEC := { st.activeEC with syncReceived := true } },
              { smNotified := true })
      else if isSyncConfigPacket h5Payload then
        some (st, { sent := [CONTROL_PKT_SYNC_CONFIG_RESPONSE] })
      else
        some (st, {})
    else
      some (st, {})
  else if packet_type = VENDOR_SPECIFIC_PACKET then
    if st.currentState = STATE_ACTIVE then
      if reliable_packet then
        if seq_num = st.ackNum then
          some ({ st with ackNum := incrementAckNum st.ackNum },
                { sent := [CONTROL_PKT_ACK], delivered := [h5Payload] })
        else
          some (st, { sent := [CONTROL_PKT_ACK] })
      else
        some (st, {})
    else
      some (st, {})
  else if packet_type = ACK_PACKET then
    if ack_num = (st.seqNum + 1) &&& 0x07 then
      some ({ st with seqNum := incrementSeqNum st.seqNum }, { ackNotified := true })
    else if ack_num = st.seqNum then
      -- Discard packet: assumed to be a reply to a previous packet.
      some (st, {})
    else
      -- `dynamic_cast<ActiveExitCriterias*>(exitCriterias[currentState])`
      -- yields the ACTIVE record only in STATE_ACTIVE; in every other state
      -- the cast fails (or the map holds no record) and the write through
      -- the null pointer is undefined behaviour.
      if st.currentState = STATE_ACTIVE then
        some ({ st with activeEC := { st.activeEC with irrecoverableSyncError := true } },
              { smNotified := true })
      else
        none
  else
    some (st, {})

/-- Iterate `processDecoded` over a list of decoded reliable VENDOR_SPECIFIC
frames `(seq, payload)`, collecting the payloads handed to the upper data
callback.  (The `none` branch is unreachable for vendor packets.) -/
def runVendorTrace (st : H5) : List (Nat × payload_t) → H5 × List payload_t
  | [] => (st, [])
  | (s, p) :: rest =>
    match processDecoded st s 0 true VENDOR_SPECIFIC_PACKET p with
    | some (st', eff) =>
      let r := runVendorTrace st' rest
      (r.1, eff.delivered ++ r.2)
    | none => (st, [])

/-- Specification-side deduplication: keep exactly the frames whose sequence
number matches the running expected number, advancing it mod 8 on a match. -/
def inSeqFilter (ack : Nat) : List (Nat × payload_t) → List payload_t
  | [] => []
  | (s, p) :: rest =>
    if s = ack then p :: inSeqFilter (incrementAckNum ack) rest
    else inSeqFilter ack rest

lemma processDecoded_vendor_active (st : H5) (s : Nat) (p : payload_t)
    (h : st.currentState = STATE_ACTIVE) :
    processDecoded st s 0 true VENDOR_SPECIFIC_PACKET p =
      (if s = st.ackNum then
        some ({ st with ackNum := incrementAckNum st.ackNum },
              { sent := [CONTROL_PKT_ACK], delivered := [p] })
      else
        some (st, { sent := [CONTROL_PKT_ACK] })) := by
  simp [processDecoded, h]

lemma runVendorTrace_eq_inSeqFilter (frames : List (Nat × payload_t)) (st : H5)
    (h : st.currentState = STATE_ACTIVE) :
    (runVendorTrace st frames).2 = inSeqFilter st.ackNum frames ∧
      (runVendorTrace st frames).1.currentState = STATE_ACTIVE := by
  induction frames generalizing st with
  | nil => exact ⟨rfl, h⟩
  | cons f rest ih =>
    obtain ⟨s, p⟩ := f
    rw [runVendorTrace, processDecoded_vendor_active st s p h]
    by_cases hs : s = st.ackNum
    · rw [if_pos hs]
      have := ih { st with ackNum := incrementAckNum st.ackNum } h
      simp only [inSeqFilter, if_pos hs]
      exact ⟨by simpa using congrArg (List.cons p) this.1, this.2⟩
    · rw [if_neg hs]
      have := ih st h
      simp only [inSeqFilter, if_neg hs]
      exact ⟨by simpa using this.1, this.2⟩

/-- C2: in STATE_ACTIVE, a decoded reliable VENDOR_SPECIFIC frame whose seq
equals the current ackNum increments ackNum mod 8, sends one ACK and delivers
its payload exactly once; a frame whose seq differs is acked and not
delivered; hence over any trace of reliable vendor frames the delivered
payloads are exactly the in-sequence ones. -/
theorem C2_vendor_dedup (st : H5) (seq : Nat) (pl : payload_t)
    (h : st.currentState = STATE_ACTIVE) :
    (seq = st.ackNum →
      processDecoded st seq 0 true VENDOR_SPECIFIC_PACKET pl =
        some ({ st with ackNum := incrementAckNum st.ackNum },
              { sent := [CONTROL_PKT_ACK], delivered := [pl] })) ∧
    (seq ≠ st.ackNum →
      processDecoded st seq 0 true VENDOR_SPECIFIC_PACKET pl =
        some (st, { sent := [CONTROL_PKT_ACK] })) ∧
    (∀ frames : List (Nat × payload_t),
      (runVendorTrace st frames).2 = inSeqFilter st.ackNum frames) := by
  refine ⟨?_, ?_, ?_⟩
  · intro hs
    rw [processDecoded_vendor_active st seq pl h, if_pos hs]
  · intro hs
    rw [processDecoded_vendor_active st seq pl h, if_neg hs]
  · intro frames
    exact (runVendorTrace_eq_inSeqFilter frames st h).1

/-- Witness for C2 at a concrete ACTIVE state: the in-sequence frame
`(seq = 0)` is delivered and acked, and a two-frame trace `[(0, [0xAA]),
(0, [0x55])]` delivers only the first payload. -/
theorem C2_vendor_dedup_witness :
    processDecoded
        { currentState := STATE_ACTIVE, seqNum := 0, ackNum := 0,
          startEC := {}, resetEC := {}, uninitEC := {}, initEC := {},
          activeEC := {} }
        0 0 true VENDOR_SPECIFIC_PACKET [0xAA] =
      some ({ currentState := STATE_ACTIVE, seqNum := 0, ackNum := 1,
              startEC := {}, resetEC := {}, uninitEC := {}, initEC := {},
              activeEC := {} },
            { sent := [CONTROL_PKT_ACK], delivered := [[0xAA]] }) ∧
    (runVendorTrace
        { currentState := STATE_ACTIVE, seqNum := 0, ackNum := 0,
          startEC := {}, resetEC := {}, uninitEC := {}, initEC := {},
          activeEC := {} }
        [(0, [0xAA]), (0, [0x55])]).2 = [[0xAA]] := by
  constructor
  · have := (C2_vendor_dedup
      { currentState := STATE_ACTIVE, seqNum := 0, ackNum := 0,
        startEC := {}, resetEC := {}, uninitEC := {}, initEC := {},
        activeEC := {} } 0 [0xAA] rfl).1 rfl
    rw [this]
    decide
  · have := ((C2_vendor_dedup
      { currentState := STATE_ACTIVE, seqNum := 0, ackNum := 0,
        startEC := {}, resetEC := {}, uninitEC := {}, initEC := {},
        activeEC := {} } 0 [0xAA] rfl).2.2 [(0, [0xAA]), (0, [0x55])])
    rw [this]
    decide

/-- C1 counterexample: the ACK branch of `processPacket` carries no state
guard, so an ACK with `ack = (seqNum + 1) mod 8` arriving in
STATE_UNINITIALIZED increments `seqNum` (0 → 1) and notifies the ack
condition, contradicting "silently dropped with seqNum … unchanged" for
states other than STATE_ACTIVE. -/
theorem C1_ack_state_guard_counterexample :
    processDecoded
        { currentState := STATE_UNINITIALIZED, seqNum := 0, ackNum := 0,
          startEC := {}, resetEC := {}, uninitEC := {}, initEC := {},
          activeEC := {} }
        0 1 false ACK_PACKET [] =
      some ({ currentState := STATE_UNINITIALIZED, seqNum := 1, ackNum := 0,
              startEC := {}, resetEC := {}, uninitEC := {}, initEC := {},
              activeEC := {} },
            { ackNotified := true }) := by
  decide

/-- C1 (amended): ACK packets are processed identically in every state except
STATE_RESET (where every packet is dropped, only notifying the state
machine): `ack = (seqNum + 1) mod 8` increments seqNum mod 8 and notifies the
ack condition; `ack = seqNum` is ignored with no state change; any other ack
value sets `irrecoverableSyncError` on the ACTIVE exit record when the
current state is STATE_ACTIVE, and in any other state dereferences a failed
`dynamic_cast` (undefined behaviour, modelled as `none`). -/
theorem C1_ack_handling (st : H5) (seq ack : Nat) (rel : Bool) (pl : payload_t)
    (hrst : st.currentState ≠ STATE_RESET) :
    (ack = (st.seqNum + 1) &&& 0x07 →
      processDecoded st seq ack rel ACK_PACKET pl =
        some ({ st with seqNum := incrementSeqNum st.seqNum },
              { ackNotified := true })) ∧
    (ack ≠ (st.seqNum + 1) &&& 0x07 → ack = st.seqNum →
      processDecoded st seq ack rel ACK_PACKET pl = some (st, {})) ∧
    (ack ≠ (st.seqNum + 1) &&& 0x07 → ack ≠ st.seqNum →
      (st.currentState = STATE_ACTIVE →
        processDecoded st seq ack rel ACK_PACKET pl =
          some ({ st with activeEC :=
                    { st.activeEC with irrecoverableSyncError := true } },
                { smNotified := true })) ∧
      (st.currentState ≠ STATE_ACTIVE →
        processDecoded st seq ack rel ACK_PACKET pl = none)) ∧
    (∀ st' : H5, st'.currentState = STATE_RESET →
      processDecoded st' seq ack rel ACK_PACKET pl =
        some (st', { smNotified := true })) := by
  refine ⟨?_, ?_, ?_, ?_⟩
  · intro h1
    simp [processDecoded, hrst, h1]
  · intro h1 h2
    subst h2
    simp [processDecoded, hrst, h1]
  · intro h1 h2
    constructor
    · intro hact
      simp [processDecoded, hrst, h1, h2, hact]
    · intro hact
      simp [processDecoded, hrst, h1, h2, hact]
  · intro st' h'
    simp [processDecoded, h']

/-- Witness for C1 (amended) at a concrete non-RESET state: in
STATE_UNINITIALIZED with `seqNum = 3`, an ACK with ack field 4 advances
seqNum to 4 and notifies the ack condition. -/
theorem C1_ack_handling_witness :
    processDecoded
        { currentState := STATE_UNINITIALIZED, seqNum := 3, ackNum := 0,
          startEC := {}, resetEC := {}, uninitEC := {}, initEC := {},
          activeEC := {} }
        0 4 false ACK_PACKET [] =
      some ({ currentState := STATE_UNINITIALIZED, seqNum := 4, ackNum := 0,
              startEC := {}, resetEC := {}, uninitEC := {}, initEC := {},
              activeEC := {} },
            { ackNotified := true }) := by
  have := (C1_ack_handling
    { currentState := STATE_UNINITIALIZED, seqNum := 3, ackNum := 0,
      startEC := {}, resetEC := {}, uninitEC := {}, initEC := {},
      activeEC := {} }
    0 4 false [] (by decide)).1 (by decide)
  rw [this]
  decide

/-- C9: `checkPattern` returns true exactly when the offset lies inside the
packet and the pattern equals the packet bytes starting there, and the E5
instances evaluate as the spec lists them. -/
theorem C9_checkPattern_correct :
    (∀ (packet : payload_t) (offset : Nat) (pat : payload_t),
      checkPattern packet offset pat = true ↔ checkPatternSpec packet offset pat) ∧
    checkPattern [0xFF, 0x01, 0x02, 0xFF, 0x01, 0x02, 0x03, 0xFF] 4
      [0x01, 0x02, 0x03] = true ∧
    checkPattern [0xFF, 0x01, 0x02, 0xFF, 0x01, 0x02, 0x03, 0xFF] 0
      [0x01, 0x02, 0x03] = false ∧
    checkPattern [0xFF, 0x01, 0x02, 0xFF, 0x01, 0x02, 0x03, 0xFF] 1
      [0x01, 0x02, 0x03] = false ∧
    checkPattern [0xFF, 0x01, 0x02, 0xFF, 0x01, 0x02, 0x03, 0xFF] 8
      [0x01, 0x02, 0x03] = false ∧
    checkPattern [0xFF, 0x01, 0x02, 0xFF, 0x01, 0x02, 0x03, 0xFF] 100
      [0x01, 0x02, 0x03] = false :=
  ⟨checkPattern_iff, by decide, by decide, by decide, by decide, by decide⟩

/-- Witness for C9 at a concrete input: instantiating the equivalence at the
E5 packet and offset 4 yields the specification-side match. -/
theorem C9_checkPattern_correct_witness :
    checkPatternSpec [0xFF, 0x01, 0x02, 0xFF, 0x01, 0x02, 0x03, 0xFF] 4
      [0x01, 0x02, 0x03] :=
  (C9_checkPattern_correct.1 [0xFF, 0x01, 0x02, 0xFF, 0x01, 0x02, 0x03, 0xFF] 4
    [0x01, 0x02, 0x03]).mp (by decide)

/-- One iteration of the byte loop in `H5Transport::dataHandler`: append the
byte to the working buffer, then handle a 0xC0 boundary.  Returns the new
buffer, the new `c0Found`, and the packet emitted to `processPacket`, if
any. -/
def handleByte (packet : payload_t) (c0Found : Bool) (b : Nat) :
    payload_t × Bool × Option payload_t :=
  let packet := packet ++ [b]
  if b = 0xC0 then
    if c0Found then
      -- End of packet found; two 0xC0 after another mean a fresh start.
      if packet.length = 2 then ([0xC0], true, none)
      else ([], false, some packet)
    else
      -- Start of packet found; data before it is irrelevant.
      ([0xC0], true, none)
  else (packet, c0Found, none)

/-- The byte loop of `dataHandler` over a chunk, collecting emitted packets. -/
def dataHandlerLoop : payload_t → Bool → List Nat → payload_t × Bool × List payload_t
  | packet, c0, [] => (packet, c0, [])
  | packet, c0, b :: rest =>
    match handleByte packet c0 b with
    | (p1, c1, emit) =>
      match dataHandlerLoop p1 c1 rest with
      | (p2, c2, emits) => (p2, c2, emit.toList ++ emits)

/-- The reassembler state persisting across `dataHandler` invocations. -/
structure Reassembler where
  unprocessedData : payload_t := []
  c0Found : Bool := false
deriving DecidableEq, Repr

/-- `H5Transport::dataHandler`: prepend the carried-over bytes, scan the new
chunk, and carry the residual buffer to the next invocation.  (In the source
`unprocessedData` always equals the residual working buffer at return: it is
cleared exactly when the buffer is, and overwritten with the buffer when the
buffer is non-empty.) -/
def dataHandler (st : Reassembler) (data : List Nat) : Reassembler × List payload_t :=
  match dataHandlerLoop st.unprocessedData st.c0Found data with
  | (p, c0, emits) => (⟨p, c0⟩, emits)

/-- Feed a list of chunks through `dataHandler`, threading the reassembler
state and concatenating the emitted packets. -/
def feedChunks (st : Reassembler) : List (List Nat) → Reassembler × List payload_t
  | [] => (st, [])
  | c :: cs =>
    match dataHandler st c with
    | (st1, emits) =>
      match feedChunks st1 cs with
      | (st2, rest) => (st2, emits ++ rest)

lemma dataHandlerLoop_append (d1 d2 : List Nat) (p : payload_t) (c0 : Bool) :
    dataHandlerLoop p c0 (d1 ++ d2) =
      ((dataHandlerLoop (dataHandlerLoop p c0 d1).1 (dataHandlerLoop p c0 d1).2.1 d2).1,
       (dataHandlerLoop (dataHandlerLoop p c0 d1).1 (dataHandlerLoop p c0 d1).2.1 d2).2.1,
       (dataHandlerLoop p c0 d1).2.2 ++
         (dataHandlerLoop (dataHandlerLoop p c0 d1).1 (dataHandlerLoop p c0 d1).2.1 d2).2.2) := by
  induction d1 generalizing p c0 with
  | nil => simp [dataHandlerLoop]
  | cons b rest ih =>
    simp only [List.cons_append, dataHandlerLoop, List.append_eq]
    rw [ih]
    simp [List.append_assoc]

lemma feedChunks_eq_join (chunks : List (List Nat)) (st : Reassembler) :
    feedChunks st chunks = dataHandler st chunks.flatten := by
  induction chunks generalizing st with
  | nil =>
    simp [feedChunks, dataHandler, dataHandlerLoop]
  | cons c cs ih =>
    simp only [feedChunks, List.flatten_cons]
    rw [ih]
    simp only [dataHandler]
    rw [dataHandlerLoop_append c cs.flatten st.unprocessedData st.c0Found]

/-- C4: per-byte behaviour of the reassembler on a 0xC0 byte — fresh start
when no start was seen; fresh start (no emission) when the buffer holds
exactly the two boundary bytes; otherwise emit the buffer and clear
everything — and the residual buffer of a chunk is carried over, so
processing a chunk after its predecessor equals processing their
concatenation. -/
theorem C4_reassembler_byte (packet : payload_t) (c0 : Bool) (b : Nat)
    (hb : b = 0xC0) :
    (c0 = false → handleByte packet c0 b = ([0xC0], true, none)) ∧
    (c0 = true → (packet ++ [b]).length = 2 →
      handleByte packet c0 b = ([0xC0], true, none)) ∧
    (c0 = true → (packet ++ [b]).length ≠ 2 →
      handleByte packet c0 b = ([], false, some (packet ++ [b]))) ∧
    (∀ (st : Reassembler) (d1 d2 : List Nat),
      dataHandler (dataHandler st d1).1 d2 =
        ((dataHandler st (d1 ++ d2)).1,
         (dataHandler st (d1 ++ d2)).2.drop (dataHandler st d1).2.length)) := by
  refine ⟨?_, ?_, ?_, ?_⟩
  · intro hc0
    subst hb hc0
    simp [handleByte]
  · intro hc0 hlen
    subst hb hc0
    simp [handleByte, hlen]
  · intro hc0 hlen
    subst hb hc0
    have hlen' : ¬ packet.length = 1 := by simp at hlen; omega
    simp [handleByte, hlen']
  · intro st d1 d2
    simp only [dataHandler]
    rw [dataHandlerLoop_append d1 d2 st.unprocessedData st.c0Found]
    simp

/-- Witness for C4: with the buffer holding the single start byte, a second
0xC0 yields a fresh start (buffer `[0xC0]`, `c0Found` kept) and no emission. -/
theorem C4_reassembler_byte_witness :
    handleByte [0xC0] true 0xC0 = ([0xC0], true, none) :=
  (C4_reassembler_byte [0xC0] true 0xC0 rfl).2.1 rfl (by decide)

/-- C5: the reassembler's emitted packets are invariant under how the byte
stream is partitioned into chunks, starting from the initial state (empty
carry-over, `c0Found = false`). -/
theorem C5_chunk_invariance (chunks1 chunks2 : List (List Nat))
    (h : chunks1.flatten = chunks2.flatten) :
    (feedChunks ⟨[], false⟩ chunks1).2 = (feedChunks ⟨[], false⟩ chunks2).2 := by
  rw [feedChunks_eq_join, feedChunks_eq_join, h]

/-- Witness for C5: two partitionings of `[0xC0, 1, 2, 0xC0]` emit the same
single framed packet. -/
theorem C5_chunk_invariance_witness :
    (feedChunks ⟨[], false⟩ [[0xC0, 1], [2, 0xC0]]).2 =
      (feedChunks ⟨[], false⟩ [[0xC0], [1, 2], [0xC0]]).2 ∧
    (feedChunks ⟨[], false⟩ [[0xC0, 1], [2, 0xC0]]).2 = [[0xC0, 1, 2, 0xC0]] :=
  ⟨C5_chunk_invariance [[0xC0, 1], [2, 0xC0]] [[0xC0], [1, 2], [0xC0]] (by decide),
   by decide⟩

/-- Result of `H5Transport::send`: the returned error code, the packets handed
to the lower transport, and the content of `lastPacket` at return. -/
structure SendResult where
  ret : nrf_error
  transmitted : List payload_t
  lastPacket : payload_t
deriving DecidableEq, Repr

/-- The retransmission loop of `H5Transport::send`
(`while (remainingRetransmissions--)`): each pass transmits `lastPacket` and
waits on the ack condition with the predicate `seqNum != seqNumBefore`;
`ackArrives i` tells whether the wait of attempt `i` observed that change.
Returns (number of transmissions, acked). -/
def sendLoop (ackArrives : Nat → Bool) : Nat → Nat → Nat × Bool
  | _, 0 => (0, false)
  | i, r + 1 =>
    if ackArrives i then (1, true)
    else
      match sendLoop ackArrives (i + 1) r with
      | (n, ok) => (n + 1, ok)

/-- `H5Transport::send`: entry guard `currentState != STATE_ACTIVE` →
INVALID_STATE with nothing transmitted and `lastPacket` untouched; otherwise
store the encoded packet in `lastPacket` (`encodedPacket` stands for
`slip_encode(h5_encode(data, seqNum, ackNum, true, true, VENDOR_SPECIFIC))`,
both codecs being external), run the loop, clear `lastPacket`, and return
SUCCESS on an observed seqNum change, TIMEOUT after the retries. -/
def send (currentState : h5_state_t) (lastPacketBefore encodedPacket : payload_t)
    (ackArrives : Nat → Bool) : SendResult :=
  if currentState ≠ STATE_ACTIVE then
    ⟨NRF_ERROR_INVALID_STATE, [], lastPacketBefore⟩
  else
    match sendLoop ackArrives 0 PACKET_RETRANSMISSIONS with
    | (n, ok) =>
      ⟨if ok then NRF_SUCCESS else NRF_ERROR_TIMEOUT, List.replicate n encodedPacket, []⟩

lemma sendLoop_le (ackArrives : Nat → Bool) (r i : Nat) :
    (sendLoop ackArrives i r).1 ≤ r := by
  induction r generalizing i with
  | zero => simp [sendLoop]
  | succ r ih =>
    simp only [sendLoop]
    by_cases ha : ackArrives i
    · simp [ha]
    · simp only [ha, if_false]
      have := ih (i + 1)
      rcases h : sendLoop ackArrives (i + 1) r with ⟨n, ok⟩
      rw [h] at this
      simpa using Nat.succ_le_succ this

lemma sendLoop_acked_iff (ackArrives : Nat → Bool) (r i : Nat) :
    (sendLoop ackArrives i r).2 = true ↔ ∃ j < r, ackArrives (i + j) = true := by
  induction r generalizing i with
  | zero => simp [sendLoop]
  | succ r ih =>
    simp only [sendLoop]
    by_cases ha : ackArrives i = true
    · rw [if_pos ha]
      constructor
      · intro _; exact ⟨0, by omega, by simpa using ha⟩
      · intro _; rfl
    · rw [if_neg ha]
      rcases h : sendLoop ackArrives (i + 1) r with ⟨n, ok⟩
      have hh := ih (i + 1)
      rw [h] at hh
      simp only at hh ⊢
      rw [hh]
      constructor
      · rintro ⟨j, hj, hja⟩
        refine ⟨j + 1, by omega, ?_⟩
        have harith : i + (j + 1) = i + 1 + j := by omega
        rw [harith]; exact hja
      · rintro ⟨j, hj, hja⟩
        cases j with
        | zero => exact absurd (by simpa using hja) ha
        | succ k =>
          refine ⟨k, by omega, ?_⟩
          have harith : i + 1 + k = i + (k + 1) := by omega
          rw [harith]; exact hja

/-- C3: `send` fails immediately with INVALID_STATE (nothing transmitted,
`lastPacket` untouched) outside STATE_ACTIVE; in STATE_ACTIVE it transmits
the encoded packet at most PACKET_RETRANSMISSIONS (6) times, returns SUCCESS
exactly when one of the waits observes a seqNum change and TIMEOUT otherwise,
clearing `lastPacket` on both paths — so from an entry state with empty
`lastPacket`, `lastPacket` is empty after every return. -/
theorem C3_send (cs : h5_state_t) (lp enc : payload_t) (ackArrives : Nat → Bool) :
    (cs ≠ STATE_ACTIVE →
      send cs lp enc ackArrives = ⟨NRF_ERROR_INVALID_STATE, [], lp⟩) ∧
    (cs = STATE_ACTIVE →
      (send cs lp enc ackArrives).transmitted.length ≤ PACKET_RETRANSMISSIONS ∧
      (∀ p ∈ (send cs lp enc ackArrives).transmitted, p = enc) ∧
      ((send cs lp enc ackArrives).ret = NRF_SUCCESS ↔
        ∃ i < PACKET_RETRANSMISSIONS, ackArrives i = true) ∧
      ((send cs lp enc ackArrives).ret = NRF_ERROR_TIMEOUT ↔
        ¬∃ i < PACKET_RETRANSMISSIONS, ackArrives i = true) ∧
      (send cs lp enc ackArrives).lastPacket = []) ∧
    (lp = [] → (send cs lp enc ackArrives).lastPacket = []) := by
  refine ⟨?_, ?_, ?_⟩
  · intro h
    simp [send, h]
  · intro h
    subst h
    have hle := sendLoop_le ackArrives PACKET_RETRANSMISSIONS 0
    have hiff := sendLoop_acked_iff ackArrives PACKET_RETRANSMISSIONS 0
    rcases hl : sendLoop ackArrives 0 PACKET_RETRANSMISSIONS with ⟨n, ok⟩
    rw [hl] at hle hiff
    simp only [Nat.zero_add] at hle hiff
    cases ok with
    | true =>
      have hsend : send STATE_ACTIVE lp enc ackArrives =
          ⟨NRF_SUCCESS, List.replicate n enc, []⟩ := by
        simp [send, hl]
      rw [hsend]
      refine ⟨by simpa using hle, fun p hp => List.eq_of_mem_replicate hp, ?_, ?_, rfl⟩
      · constructor
        · intro _; exact hiff.mp rfl
        · intro _; rfl
      · constructor
        · intro hc; exact absurd hc (by simp)
        · intro hnex; exact absurd (hiff.mp rfl) hnex
    | false =>
      have hsend : send STATE_ACTIVE lp enc ackArrives =
          ⟨NRF_ERROR_TIMEOUT, List.replicate n enc, []⟩ := by
        simp [send, hl]
      rw [hsend]
      refine ⟨by simpa using hle, fun p hp => List.eq_of_mem_replicate hp, ?_, ?_, rfl⟩
      · constructor
        · intro hc; exact absurd hc (by simp)
        · intro hex; exact absurd (hiff.mpr hex) (by decide)
      · constructor
        · intro _ hex; exact absurd (hiff.mpr hex) (by decide)
        · intro _; rfl
  · intro h
    subst h
    by_cases hcs : cs = STATE_ACTIVE
    · subst hcs
      rcases hl : sendLoop ackArrives 0 PACKET_RETRANSMISSIONS with ⟨n, ok⟩
      simp [send, hl]
    · simp [send, hcs]

/-- Witness for C3: in STATE_ACTIVE with an ack observed on the first wait,
`send` returns SUCCESS having transmitted once, with `lastPacket` cleared;
and outside ACTIVE it returns INVALID_STATE untouched. -/
theorem C3_send_witness :
    (send STATE_ACTIVE [] [1, 2, 3] (fun _ => true)).ret = NRF_SUCCESS ∧
    (send STATE_ACTIVE [] [1, 2, 3] (fun _ => true)).lastPacket = [] ∧
    send STATE_UNINITIALIZED [] [1, 2, 3] (fun _ => false) =
      ⟨NRF_ERROR_INVALID_STATE, [], []⟩ :=
  ⟨((C3_send STATE_ACTIVE [] [1, 2, 3] (fun _ => true)).2.1 rfl).2.2.1.mpr
      ⟨0, by decide, rfl⟩,
   ((C3_send STATE_ACTIVE [] [1, 2, 3] (fun _ => true)).2.1 rfl).2.2.2.2,
   (C3_send STATE_UNINITIALIZED [] [1, 2, 3] (fun _ => false)).1 (by decide)⟩

/-- Every write to the `seqNum` / `ackNum` pair in the source: construction
initialises both to 0, the STATE_ACTIVE action zeroes both, and the only
other writes are `incrementSeqNum` and `incrementAckNum`. -/
inductive CounterReachable : Nat → Nat → Prop
  | init : CounterReachable 0 0
  | activeEntry {s a : Nat} : CounterReachable s a → CounterReachable 0 0
  | incSeq {s a : Nat} : CounterReachable s a → CounterReachable (incrementSeqNum s) a
  | incAck {s a : Nat} : CounterReachable s a → CounterReachable s (incrementAckNum a)

lemma incrementSeqNum_le (n : Nat) : incrementSeqNum n ≤ 7 := by
  unfold incrementSeqNum
  have h := Nat.and_pow_two_sub_one_eq_mod (n + 1) 3
  simp only [show (2 : Nat) ^ 3 - 1 = 7 by norm_num,
    show (2 : Nat) ^ 3 = 8 by norm_num] at h
  rw [show (0x07 : Nat) = 7 by norm_num, h]
  omega

lemma incrementAckNum_le (n : Nat) : incrementAckNum n ≤ 7 := incrementSeqNum_le n

/-- C6: every reachable value of `seqNum` and `ackNum` lies in [0, 7]. -/
theorem C6_counters_in_range (s a : Nat) (h : CounterReachable s a) :
    s ≤ 7 ∧ a ≤ 7 := by
  induction h with
  | init => exact ⟨by omega, by omega⟩
  | activeEntry _ _ => exact ⟨by omega, by omega⟩
  | incSeq _ ih => exact ⟨incrementSeqNum_le _, ih.2⟩
  | incAck _ ih => exact ⟨ih.1, incrementAckNum_le _⟩

/-- Witness for C6: the initial counters, and the counters after one
increment of each, are reachable and in range. -/
theorem C6_counters_in_range_witness :
    (0 : Nat) ≤ 7 ∧ (0 : Nat) ≤ 7 ∧ incrementSeqNum 0 ≤ 7 ∧ incrementAckNum 0 ≤ 7 :=
  ⟨(C6_counters_in_range 0 0 CounterReachable.init).1,
   (C6_counters_in_range 0 0 CounterReachable.init).2,
   (C6_counters_in_range (incrementSeqNum 0) (incrementAckNum 0)
      (CounterReachable.incAck (CounterReachable.incSeq CounterReachable.init))).1,
   (C6_counters_in_range (incrementSeqNum 0) (incrementAckNum 0)
      (CounterReachable.incAck (CounterReachable.incSeq CounterReachable.init))).2⟩

/-- Resolution at the end of `stateActions[STATE_START]` ("order is of
importance when returning state"). -/
def startActionResolve (e : StartExitCriterias) : h5_state_t :=
  if e.ioResourceError then STATE_FAILED
  else if e.close then STATE_CLOSED
  else if e.isOpened then STATE_RESET
  else STATE_FAILED

/-- Resolution at the end of `stateActions[STATE_RESET]`. -/
def resetActionResolve (e : ResetExitCriterias) : h5_state_t :=
  if e.ioResourceError then STATE_FAILED
  else if e.close then STATE_CLOSED
  else if e.resetSent && e.resetWait then STATE_UNINITIALIZED
  else STATE_FAILED

/-- Resolution at the end of `stateActions[STATE_UNINITIALIZED]`. -/
def uninitializedActionResolve (e : UninitializedExitCriterias) : h5_state_t :=
  if e.ioResourceError then STATE_FAILED
  else if e.close then STATE_CLOSED
  else if e.syncSent && e.syncRspReceived then STATE_INITIALIZED
  else STATE_FAILED

/-- Resolution at the end of `stateActions[STATE_INITIALIZED]`. -/
def initializedActionResolve (e : InitializedExitCriterias) : h5_state_t :=
  if e.ioResourceError then STATE_FAILED
  else if e.close then STATE_CLOSED
  else if e.syncConfigSent && e.syncConfigRspReceived then STATE_ACTIVE
  else STATE_FAILED

/-- Resolution at the end of `stateActions[STATE_ACTIVE]`. -/
def activeActionResolve (e : ActiveExitCriterias) : h5_state_t :=
  if e.ioResourceError then STATE_FAILED
  else if e.close then STATE_CLOSED
  else if e.syncReceived || e.irrecoverableSyncError then STATE_RESET
  else STATE_FAILED

/-- The next state computed by `stateActions[s]` as a function of the exit
records observed when the state's wait finishes.  FAILED and CLOSED return
themselves; STATE_UNKNOWN has no entry in the `stateActions` map (calling it
would throw `bad_function_call`), modelled as `none`. -/
def stateActionNext (s : h5_state_t) (st : H5) : Option h5_state_t :=
  match s with
  | STATE_START => some (startActionResolve st.startEC)
  | STATE_RESET => some (resetActionResolve st.resetEC)
  | STATE_UNINITIALIZED => some (uninitializedActionResolve st.uninitEC)
  | STATE_INITIALIZED => some (initializedActionResolve st.initEC)
  | STATE_ACTIVE => some (activeActionResolve st.activeEC)
  | STATE_FAILED => some STATE_FAILED
  | STATE_CLOSED => some STATE_CLOSED
  | STATE_UNKNOWN => none

/-- The §4.4 edge set of the state machine. -/
def allowedEdge (s t : h5_state_t) : Bool :=
  match s, t with
  | STATE_START, STATE_FAILED => true
  | STATE_START, STATE_CLOSED => true
  | STATE_START, STATE_RESET => true
  | STATE_RESET, STATE_FAILED => true
  | STATE_RESET, STATE_CLOSED => true
  | STATE_RESET, STATE_UNINITIALIZED => true
  | STATE_UNINITIALIZED, STATE_FAILED => true
  | STATE_UNINITIALIZED, STATE_CLOSED => true
  | STATE_UNINITIALIZED, STATE_INITIALIZED => true
  | STATE_INITIALIZED, STATE_FAILED => true
  | STATE_INITIALIZED, STATE_CLOSED => true
  | STATE_INITIALIZED, STATE_ACTIVE => true
  | STATE_ACTIVE, STATE_FAILED => true
  | STATE_ACTIVE, STATE_CLOSED => true
  | STATE_ACTIVE, STATE_RESET => true
  | STATE_FAILED, STATE_FAILED => true
  | STATE_CLOSED, STATE_CLOSED => true
  | _, _ => false

/-- One iteration of `stateMachineWorker`: run the action for the current
state and write the returned state to `currentState`; the loop body is not
entered once the state is FAILED or CLOSED. -/
def workerStep (rec : H5) (s : h5_state_t) : h5_state_t :=
  if s = STATE_FAILED ∨ s = STATE_CLOSED then s
  else (stateActionNext s rec).getD s

/-- `stateMachineWorker` run for `n` iterations; `recs i` is the snapshot of
the exit records observed when the i-th action's wait completes. -/
def workerRun (recs : Nat → H5) : Nat → h5_state_t → h5_state_t
  | 0, s => s
  | n + 1, s => workerRun (fun i => recs (i + 1)) n (workerStep (recs 0) s)

/-- C7: from any state with an action (every state but STATE_UNKNOWN), one
worker iteration moves only along the §4.4 edge set, each action resolves by
the fixed priority order (ioResourceError, then close, then the
state-specific success edge, else FAILED), and the worker never leaves
FAILED or CLOSED. -/
theorem C7_state_machine_edges (rec : H5) (s : h5_state_t)
    (h : s ≠ STATE_UNKNOWN) :
    allowedEdge s (workerStep rec s) = true ∧
    (∀ e : StartExitCriterias, e.ioResourceError = true →
      startActionResolve e = STATE_FAILED) ∧
    (∀ e : StartExitCriterias, e.ioResourceError = false → e.close = true →
      startActionResolve e = STATE_CLOSED) ∧
    (∀ e : ActiveExitCriterias, e.ioResourceError = false → e.close = false →
      (e.syncReceived || e.irrecoverableSyncError) = true →
      activeActionResolve e = STATE_RESET) ∧
    (∀ e : ActiveExitCriterias, e.ioResourceError = false → e.close = false →
      (e.syncReceived || e.irrecoverableSyncError) = false →
      activeActionResolve e = STATE_FAILED) ∧
    (∀ (recs : Nat → H5) (n : Nat), workerRun recs n STATE_FAILED = STATE_FAILED) ∧
    (∀ (recs : Nat → H5) (n : Nat), workerRun recs n STATE_CLOSED = STATE_CLOSED) := by
  refine ⟨?_, ?_, ?_, ?_, ?_, ?_, ?_⟩
  · rcases rec with ⟨cs, sq, ak, ⟨sio, scl, sop⟩, ⟨rio, rcl, rsn, rwt⟩,
      ⟨uio, ucl, usn, urr⟩, ⟨iio, icl, isn, irr⟩, ⟨aio, acl, asr, aie⟩⟩
    cases s with
    | STATE_UNKNOWN => exact absurd rfl h
    | STATE_START => cases sio <;> cases scl <;> cases sop <;> rfl
    | STATE_RESET => cases rio <;> cases rcl <;> cases rsn <;> cases rwt <;> rfl
    | STATE_UNINITIALIZED => cases uio <;> cases ucl <;> cases usn <;> cases urr <;> rfl
    | STATE_INITIALIZED => cases iio <;> cases icl <;> cases isn <;> cases irr <;> rfl
    | STATE_ACTIVE => cases aio <;> cases acl <;> cases asr <;> cases aie <;> rfl
    | STATE_FAILED => rfl
    | STATE_CLOSED => rfl
  · intro e hio; simp [startActionResolve, hio]
  · intro e hio hc; simp [startActionResolve, hio, hc]
  · intro e hio hc hs; simp [activeActionResolve, hio, hc, hs]
  · intro e hio hc hs; simp [activeActionResolve, hio, hc, hs]
  · intro recs n
    induction n generalizing recs with
    | zero => rfl
    | succ m ih => simp only [workerRun, workerStep]; simp [ih]
  · intro recs n
    induction n generalizing recs with
    | zero => rfl
    | succ m ih => simp only [workerRun, workerStep]; simp [ih]

/-- Witness for C7 at a concrete state and record: from STATE_ACTIVE with
only `syncReceived` set, one worker iteration moves along the edge to
STATE_RESET. -/
theorem C7_state_machine_edges_witness :
    allowedEdge STATE_ACTIVE
      (workerStep
        { currentState := STATE_ACTIVE, seqNum := 0, ackNum := 0,
          startEC := {}, resetEC := {}, uninitEC := {}, initEC := {},
          activeEC := { syncReceived := true } }
        STATE_ACTIVE) = true :=
  (C7_state_machine_edges
    { currentState := STATE_ACTIVE, seqNum := 0, ackNum := 0,
      startEC := {}, resetEC := {}, uninitEC := {}, initEC := {},
      activeEC := { syncReceived := true } }
    STATE_ACTIVE (by decide)).1

/-- The retry loop of `stateActions[STATE_UNINITIALIZED]`
(`while (!exit->isFullfilled() && syncRetransmission > 0)`): each pass sends
SYNC, sets `syncSent`, and waits for `NON_ACTIVE_STATE_TIMEOUT`; `env i`
gives the record as other threads have left it when the i-th wait returns.
Returns (final record, remaining retries, number of SYNC sends). -/
def uninitLoop (env : Nat → UninitializedExitCriterias → UninitializedExitCriterias) :
    UninitializedExitCriterias → Nat → Nat → UninitializedExitCriterias × Nat × Nat
  | e, _, 0 => (e, 0, 0)
  | e, i, r + 1 =>
    if e.isFullfilled then (e, r + 1, 0)
    else
      match uninitLoop env (env i { e with syncSent := true }) (i + 1) r with
      | (e2, rem, n) => (e2, rem, n + 1)

/-- Result of one run of the STATE_UNINITIALIZED action. -/
structure UninitActionResult where
  nextState : h5_state_t
  maxRetriesStatusEmitted : Bool
  syncSends : Nat
  record : UninitializedExitCriterias
  remaining : Nat
deriving DecidableEq, Repr

/-- `stateActions[STATE_UNINITIALIZED]`: reset the record, run the retry
loop, then resolve in priority order; `PKT_SEND_MAX_RETRIES_REACHED` is
emitted through the status handler only on the final fall-through when the
retries are exhausted. -/
def uninitializedAction
    (env : Nat → UninitializedExitCriterias → UninitializedExitCriterias) :
    UninitActionResult :=
  match uninitLoop env {} 0 PACKET_RETRANSMISSIONS with
  | (e, rem, sends) =>
    if e.ioResourceError then ⟨STATE_FAILED, false, sends, e, rem⟩
    else if e.close then ⟨STATE_CLOSED, false, sends, e, rem⟩
    else if e.syncSent && e.syncRspReceived then ⟨STATE_INITIALIZED, false, sends, e, rem⟩
    else ⟨STATE_FAILED, rem = 0, sends, e, rem⟩

lemma uninitLoop_sends_le (env : Nat → UninitializedExitCriterias → UninitializedExitCriterias)
    (r : Nat) (e : UninitializedExitCriterias) (i : Nat) :
    (uninitLoop env e i r).2.2 ≤ r := by
  induction r generalizing e i with
  | zero => simp [uninitLoop]
  | succ r ih =>
    simp only [uninitLoop]
    by_cases hf : e.isFullfilled = true
    · rw [if_pos hf]; simp
    · rw [if_neg hf]
      rcases h : uninitLoop env (env i { e with syncSent := true }) (i + 1) r with ⟨e2, rem, n⟩
      have := ih (env i { e with syncSent := true }) (i + 1)
      rw [h] at this
      simpa using Nat.succ_le_succ this

lemma uninitLoop_exhausted (env : Nat → UninitializedExitCriterias → UninitializedExitCriterias)
    (r : Nat) (e : UninitializedExitCriterias) (i : Nat) :
    (uninitLoop env e i r).1.isFullfilled = true ∨ (uninitLoop env e i r).2.1 = 0 := by
  induction r generalizing e i with
  | zero => simp [uninitLoop]
  | succ r ih =>
    simp only [uninitLoop]
    by_cases hf : e.isFullfilled = true
    · rw [if_pos hf]; exact Or.inl hf
    · rw [if_neg hf]
      rcases h : uninitLoop env (env i { e with syncSent := true }) (i + 1) r with ⟨e2, rem, n⟩
      have := ih (env i { e with syncSent := true }) (i + 1)
      rw [h] at this
      simpa using this

/-- C8: the STATE_UNINITIALIZED action sends SYNC at most
PACKET_RETRANSMISSIONS (6) times; when the loop ends with `syncSent` and
`syncRspReceived` (and neither `ioResourceError` nor `close`) it moves to
STATE_INITIALIZED; when the record was never fulfilled the retries are
exhausted, the `PKT_SEND_MAX_RETRIES_REACHED` status is emitted and it moves
to STATE_FAILED; `ioResourceError` and `close` take priority over both
outcomes (and suppress the status). -/
theorem C8_uninitialized_retries
    (env : Nat → UninitializedExitCriterias → UninitializedExitCriterias) :
    (uninitializedAction env).syncSends ≤ PACKET_RETRANSMISSIONS ∧
    ((uninitializedAction env).record.ioResourceError = false →
      (uninitializedAction env).record.close = false →
      ((uninitializedAction env).record.syncSent &&
        (uninitializedAction env).record.syncRspReceived) = true →
      (uninitializedAction env).nextState = STATE_INITIALIZED ∧
      (uninitializedAction env).maxRetriesStatusEmitted = false) ∧
    ((uninitializedAction env).record.isFullfilled = false →
      (uninitializedAction env).remaining = 0 ∧
      (uninitializedAction env).nextState = STATE_FAILED ∧
      (uninitializedAction env).maxRetriesStatusEmitted = true) ∧
    ((uninitializedAction env).record.ioResourceError = true →
      (uninitializedAction env).nextState = STATE_FAILED ∧
      (uninitializedAction env).maxRetriesStatusEmitted = false) ∧
    ((uninitializedAction env).record.ioResourceError = false →
      (uninitializedAction env).record.close = true →
      (uninitializedAction env).nextState = STATE_CLOSED ∧
      (uninitializedAction env).maxRetriesStatusEmitted = false) := by
  have hle := uninitLoop_sends_le env PACKET_RETRANSMISSIONS {} 0
  have hex := uninitLoop_exhausted env PACKET_RETRANSMISSIONS {} 0
  rcases hl : uninitLoop env {} 0 PACKET_RETRANSMISSIONS with ⟨⟨eio, ecl, esn, err⟩, rem, sends⟩
  rw [hl] at hle hex
  simp only [UninitializedExitCriterias.isFullfilled] at hex
  simp only [uninitializedAction, hl]
  cases eio <;> cases ecl <;> cases esn <;> cases err <;>
    simp_all [UninitializedExitCriterias.isFullfilled]

/-- Witness for C8 with the environment that delivers the SYNC_RESPONSE on
the first wait: one SYNC is sent and the action resolves to
STATE_INITIALIZED without emitting the max-retries status. -/
theorem C8_uninitialized_retries_witness :
    (uninitializedAction (fun _ e => { e with syncRspReceived := true })).nextState =
      STATE_INITIALIZED ∧
    (uninitializedAction (fun _ e => { e with syncRspReceived := true })).syncSends ≤
      PACKET_RETRANSMISSIONS ∧
    (uninitializedAction
        (fun _ e => { e with syncRspReceived := true })).maxRetriesStatusEmitted = false :=
  ⟨((C8_uninitialized_retries (fun _ e => { e with syncRspReceived := true })).2.1
      (by decide) (by decide) (by decide)).1,
   (C8_uninitialized_retries (fun _ e => { e with syncRspReceived := true })).1,
   ((C8_uninitialized_retries (fun _ e => { e with syncRspReceived := true })).2.1
      (by decide) (by decide) (by decide)).2⟩

/-- Whether `exitCriterias[s]` holds a record: only the five handshake states
are given records in `setupStateMachine`; for FAILED, CLOSED and UNKNOWN the
map lookup yields a null pointer. -/
def hasExitRecord : h5_state_t → Bool
  | STATE_START => true
  | STATE_RESET => true
  | STATE_UNINITIALIZED => true
  | STATE_INITIALIZED => true
  | STATE_ACTIVE => true
  | _ => false

/-- The flag write in `H5Transport::statusHandler`: set `ioResourceError` on
the current state's record when one exists (`if (exitCriteria != nullptr)`),
otherwise leave everything untouched. -/
def setIoResourceError (st : H5) : H5 :=
  match st.currentState with
  | STATE_START => { st with startEC := { st.startEC with ioResourceError := true } }
  | STATE_RESET => { st with resetEC := { st.resetEC with ioResourceError := true } }
  | STATE_UNINITIALIZED =>
      { st with uninitEC := { st.uninitEC with ioResourceError := true } }
  | STATE_INITIALIZED => { st with initEC := { st.initEC with ioResourceError := true } }
  | STATE_ACTIVE => { st with activeEC := { st.activeEC with ioResourceError := true } }
  | _ => st

/-- `H5Transport::statusHandler`: on IO_RESOURCES_UNAVAILABLE, set the flag
on the current record (if any) and notify the state machine; in every case
forward the code to the upper status callback when one is registered.
Returns (new state, state machine notified, code forwarded upstream). -/
def statusHandler (st : H5) (code : sd_rpc_app_status_t) (upperRegistered : Bool) :
    H5 × Bool × Bool :=
  if code = IO_RESOURCES_UNAVAILABLE then
    (setIoResourceError st, true, upperRegistered)
  else
    (st, false, upperRegistered)

/-- The flag write in `H5Transport::close`: set `close` on the current
state's record when one exists, otherwise leave everything untouched. -/
def setCloseFlag (st : H5) : H5 :=
  match st.currentState with
  | STATE_START => { st with startEC := { st.startEC with close := true } }
  | STATE_RESET => { st with resetEC := { st.resetEC with close := true } }
  | STATE_UNINITIALIZED => { st with uninitEC := { st.uninitEC with close := true } }
  | STATE_INITIALIZED => { st with initEC := { st.initEC with close := true } }
  | STATE_ACTIVE => { st with activeEC := { st.activeEC with close := true } }
  | _ => st

/-- The unconditional steps `close()` performs after the flag write: notify
the state-machine condition, join the state-machine thread
(`stopStateMachine`), and close the lower transport. -/
structure CloseEffects where
  notified : Bool
  stateMachineJoined : Bool
  lowerTransportClosed : Bool
deriving DecidableEq, Repr

/-- `H5Transport::close`: set the `close` flag on the current record (null
record tolerated), then always notify, join, and close the lower layer. -/
def close (st : H5) : H5 × CloseEffects :=
  (setCloseFlag st, ⟨true, true, true⟩)

/-- C10: in a state with no exit-criteria record (FAILED, CLOSED, UNKNOWN)
both `statusHandler` on IO_RESOURCES_UNAVAILABLE and `close` leave every
record and counter unchanged, yet `statusHandler` still forwards the code to
the upper callback exactly when one is registered, and `close` still
notifies, joins the state-machine thread and closes the lower transport. -/
theorem C10_null_record_safe (st : H5) (upperRegistered : Bool)
    (h : hasExitRecord st.currentState = false) :
    statusHandler st IO_RESOURCES_UNAVAILABLE upperRegistered =
      (st, true, upperRegistered) ∧
    close st = (st, ⟨true, true, true⟩) := by
  have hset : setIoResourceError st = st := by
    unfold setIoResourceError
    rcases st with ⟨cs, sq, ak, se, re, ue, ie, ae⟩
    cases cs <;> simp_all [hasExitRecord]
  have hclose : setCloseFlag st = st := by
    unfold setCloseFlag
    rcases st with ⟨cs, sq, ak, se, re, ue, ie, ae⟩
    cases cs <;> simp_all [hasExitRecord]
  exact ⟨by simp [statusHandler, hset], by simp [close, hclose]⟩

/-- Witness for C10: a transport stuck in STATE_FAILED tolerates both the IO
status and `close`. -/
theorem C10_null_record_safe_witness :
    statusHandler
        { currentState := STATE_FAILED, seqNum := 0, ackNum := 0,
          startEC := {}, resetEC := {}, uninitEC := {}, initEC := {},
          activeEC := {} }
        IO_RESOURCES_UNAVAILABLE true =
      ({ currentState := STATE_FAILED, seqNum := 0, ackNum := 0,
         startEC := {}, resetEC := {}, uninitEC := {}, initEC := {},
         activeEC := {} }, true, true) ∧
    close
        { currentState := STATE_FAILED, seqNum := 0, ackNum := 0,
          startEC := {}, resetEC := {}, uninitEC := {}, initEC := {},
          activeEC := {} } =
      ({ currentState := STATE_FAILED, seqNum := 0, ackNum := 0,
         startEC := {}, resetEC := {}, uninitEC := {}, initEC := {},
         activeEC := {} }, ⟨true, true, true⟩) :=
  C10_null_record_safe
    { currentState := STATE_FAILED, seqNum := 0, ackNum := 0,
      startEC := {}, resetEC := {}, uninitEC := {}, initEC := {},
      activeEC := {} }
    true (by decide)

end H5Spec






